import Mathlib

/-!
Verification development for the `django-drf-dynamics` repository.

The Python sources are shallowly embedded in Lean: pure reshaping code
becomes Lean functions, fallible code returns `Except PyErr`, Python
dictionaries become insertion-ordered association lists, and Django
querysets are modelled as the (ordered) log of `Q` filters applied to
them.  External stdlib/framework primitives (`decimal.Decimal`,
`datetime.fromisoformat`, `int`, the Django cache) are modelled by
small executable functions whose scope is documented at the definition.
-/

/-- Python exceptions that the embedded code can raise. -/
inductive PyErr where
  | indexError
  | typeError
  | valueError (msg : String)
  | validationError (msg : String)
  | runtimeError (msg : String)
deriving DecidableEq, Repr

/-- Decidable equality of `Except` results, so that concrete runs of the
embedded code can be checked by `decide`. -/
instance [DecidableEq ε] [DecidableEq α] : DecidableEq (Except ε α) := fun x y =>
  match x, y with
  | .ok a, .ok b => decidable_of_iff (a = b) (by simp)
  | .ok _, .error _ => isFalse (by simp)
  | .error _, .ok _ => isFalse (by simp)
  | .error e, .error f => decidable_of_iff (e = f) (by simp)

/-- Python list indexing `l[i]` (raises `IndexError` when out of range;
negative indices are not used by the embedded code). -/
def pyGet (l : List α) (i : Nat) : Except PyErr α :=
  match l.get? i with
  | some a => .ok a
  | none => .error .indexError

/-- Python list item assignment `l[i] = v` (raises `IndexError` when
`i` is not an index of an existing element). -/
def pyListSet (l : List α) (i : Nat) (v : α) : Except PyErr (List α) :=
  if i < l.length then .ok (l.set i v) else .error .indexError

/-- Lookup in an insertion-ordered association list (Python `dict.get` /
`QueryDict.get` on the keys present). -/
def alookup (d : List (String × α)) (k : String) : Option α :=
  match d with
  | [] => none
  | (k', v) :: rest => if k' = k then some v else alookup rest k

/-- Python `dict[k] = v`: update in place when the key exists (keeping
its position), append otherwise. -/
def pyDictInsert (d : List (String × α)) (k : String) (v : α) : List (String × α) :=
  match d with
  | [] => [(k, v)]
  | (k', v') :: rest =>
      if k' = k then (k, v) :: rest else (k', v') :: pyDictInsert rest k v

/-- Python `str.split(sep)` on the character list, for the single-character
separators the sources use (keeps empty segments, as Python does). -/
def pySplitAux (sep : Char) : List Char → List (List Char)
  | [] => [[]]
  | c :: rest =>
    match pySplitAux sep rest with
    | [] => [[]]
    | h :: t => if c = sep then [] :: h :: t else (c :: h) :: t

/-- Python `s.split(sep)` for a one-character separator. -/
def pySplit (s : String) (sep : Char) : List String :=
  (pySplitAux sep s.toList).map String.mk

/-- Python `s.strip()` (leading and trailing whitespace removed). -/
def pyStrip (s : String) : String :=
  String.mk (((s.toList.dropWhile Char.isWhitespace).reverse.dropWhile
    Char.isWhitespace).reverse)

/-- Falsiness of a string (`if not s:`): true exactly on the empty string. -/
def strFalsy (s : String) : Bool := s.toList.isEmpty

/-- Truthiness of an optional string (`if x:` where `x` came from
`query_params.get(key, None)`): `None` and the empty string are falsy. -/
def optTruthy (o : Option String) : Bool :=
  match o with
  | none => false
  | some s => !strFalsy s

/-- Proleptic-Gregorian day count of a month, as validated by
`datetime.date`. -/
def daysInMonth (y m : Nat) : Nat :=
  if m = 2 then
    if y % 4 = 0 && (y % 100 ≠ 0 || y % 400 = 0) then 29 else 28
  else if m = 4 || m = 6 || m = 9 || m = 11 then 30
  else 31

/-- A Python `datetime.date`. -/
structure PyDate where
  year : Nat
  month : Nat
  day : Nat
deriving DecidableEq, Repr

/-- Numeric value of a decimal digit character. -/
def digitVal (c : Char) : Nat := c.toNat - 48

/-- Modelled from the external stdlib: `datetime.fromisoformat(s).date()`
restricted to the date-only `YYYY-MM-DD` format that this repository's
docstrings use; returns `none` where Python raises `ValueError`.
Time-suffixed ISO strings are outside the model's scope. -/
def pyFromIso (s : String) : Option PyDate :=
  match s.toList with
  | [a, b, c, d, '-', e, f, '-', g, h] =>
      if [a, b, c, d, e, f, g, h].all Char.isDigit then
        let y := 1000 * digitVal a + 100 * digitVal b + 10 * digitVal c + digitVal d
        let m := 10 * digitVal e + digitVal f
        let dd := 10 * digitVal g + digitVal h
        if 1 ≤ y && 1 ≤ m && m ≤ 12 && 1 ≤ dd && dd ≤ daysInMonth y m then
          some ⟨y, m, dd⟩
        else none
      else none
  | _ => none

/-- Modelled from the external stdlib: the `decimal.Decimal` constructor
on plain decimal literals `[+-]?digits[.digits]` (surrounding whitespace
stripped, as Python does); the value is carried as the accepted literal.
Exponent, `Infinity` and `NaN` forms are outside the model's scope;
`none` models a raised `InvalidOperation`. -/
def pyDecimalParse (s : String) : Option String :=
  let t := pyStrip s
  let body :=
    match t.toList with
    | '+' :: r => r
    | '-' :: r => r
    | r => r
  if body.isEmpty then none
  else if body.all (fun c => c.isDigit || c = '.')
          && (body.filter (fun c => c = '.')).length ≤ 1
          && body.any Char.isDigit then
    some t
  else none

/-- Truthiness of a `decimal.Decimal` (`Decimal("0")` and friends are
falsy): the carried literal has a nonzero digit. -/
def decTruthy (d : String) : Bool :=
  d.toList.any (fun c => c.isDigit && c ≠ '0')

/-- A value carried by a `Q` lookup: a `Decimal` or a `date`. -/
inductive FilterVal where
  | decV (literal : String)
  | dateV (d : PyDate)
deriving DecidableEq, Repr

/-- A `django.db.models.Q` object as built by the embedded filters:
`Q()`, a single keyword lookup, or a conjunction. -/
inductive PyQ where
  | empty
  | cond (lookup : String) (v : FilterVal)
  | and (a b : PyQ)
deriving DecidableEq, Repr

/-- A queryset, modelled as the ordered log of `Q` filters that
`.filter(...)` has applied to it. -/
abbrev QuerySet := List PyQ

/-- `queryset.filter(q)`. -/
def qsFilter (qs : QuerySet) (q : PyQ) : QuerySet := qs ++ [q]

/-! ## `AmountFilterBackend.filter_queryset`
(src/django_drf_dynamics/filters/range_filters.py) -/

/-- First loop of `AmountFilterBackend.filter_queryset`: build
`amount_ranges_dict` from the comma-separated entries.  Every Python
statement is kept: `amount_range_elements[1]` raises `IndexError` on an
entry without `:`, and the single-bound branch executes
`amount_range_element_split[1] = None`, an out-of-range list
assignment. -/
def amountParseEntries :
    List String → List (String × List (Option String)) →
    Except PyErr (List (String × List (Option String)))
  | [], acc => .ok acc
  | ar :: rest, acc => do
    let t := pyStrip ar
    let elems := pySplit t ':'
    let second ← pyGet elems 1
    let split2 : List (Option String) := (pySplit second '-').map some
    let n := split2.length
    if n > 2 then
      amountParseEntries rest acc
    else if n = 1 then do
      let split2 ← pyListSet split2 1 none
      let k ← pyGet elems 0
      amountParseEntries rest (pyDictInsert acc (pyStrip k) split2)
    else do
      let k ← pyGet elems 0
      amountParseEntries rest (pyDictInsert acc (pyStrip k) split2)

/-- One iteration of the second loop of
`AmountFilterBackend.filter_queryset`: `.ok none` models `continue`
(a caught `ValueError`/`InvalidOperation`), `.ok (some q)` models the
reassignment `amount_filter_q = ...`, and `.error` an uncaught
exception. -/
def amountStepResult (field : String) (lst : List (Option String)) :
    Except PyErr (Option PyQ) := do
  let low ← pyGet lst 0
  let high ← pyGet lst 1
  match low with
  | none => .error .typeError
  | some lowS =>
    match pyDecimalParse lowS with
    | none => .ok none
    | some dlow =>
      if optTruthy high then
        match pyDecimalParse (high.getD "") with
        | none => .ok none
        | some dhigh =>
          let q1 := PyQ.cond (field ++ "__gte") (.decV dlow)
          .ok (some (if decTruthy dhigh then
            PyQ.and q1 (PyQ.cond (field ++ "__lte") (.decV dhigh)) else q1))
      else
        .ok (some (PyQ.cond (field ++ "__gte") (.decV dlow)))

/-- Second loop of `AmountFilterBackend.filter_queryset`: fold the
iterations over the dict items, carrying `amount_filter_q`.  Note that a
successful iteration *reassigns* the accumulator rather than conjoining
with it. -/
def amountBuildQ : List (String × List (Option String)) → PyQ → Except PyErr PyQ
  | [], q => .ok q
  | (field, lst) :: rest, q =>
    match amountStepResult field lst with
    | .error e => .error e
    | .ok none => amountBuildQ rest q
    | .ok (some q') => amountBuildQ rest q'

/-- `AmountFilterBackend.filter_queryset` over the request's query
parameters (the `request` and `view` arguments reduce to the query
parameter list; the view is unused by this backend). -/
def AmountFilterBackend.filter_queryset (params : List (String × String))
    (queryset : QuerySet) : Except PyErr QuerySet :=
  match alookup params "amount_ranges" with
  | none => .ok queryset
  | some s =>
    if strFalsy s then .ok queryset
    else do
      let d ← amountParseEntries (pySplit s ',') []
      if d.isEmpty then .ok queryset
      else do
        let q ← amountBuildQ d PyQ.empty
        .ok (qsFilter queryset q)

/-! ## `DateFilterBackend.filter_queryset`
(src/django_drf_dynamics/filters/date_filters.py) -/

/-- Loop of the new-style branch of `DateFilterBackend.filter_queryset`
building `date_ranges_dict`: entries with fewer than 2 or more than 3
`:`-separated parts are skipped (`continue`); 2-part entries store a
one-element list, 3-part entries a two-element list.  This loop raises
no exception. -/
def dateParseEntries :
    List String → List (String × List String) → List (String × List String)
  | [], acc => acc
  | dr :: rest, acc =>
    let t := pyStrip dr
    let elems := pySplit t ':'
    let n := elems.length
    if n > 3 || n ≤ 1 then
      dateParseEntries rest acc
    else if n = 2 then
      dateParseEntries rest
        (pyDictInsert acc (pyStrip (elems.headD "")) [pyStrip (elems.getD 1 "")])
    else
      dateParseEntries rest
        (pyDictInsert acc (pyStrip (elems.headD ""))
          [pyStrip (elems.getD 1 ""), pyStrip (elems.getD 2 "")])

/-- One iteration of the `Q`-building loop of the new-style branch of
`DateFilterBackend.filter_queryset`.  `date_list[1]` is evaluated
unconditionally, so a one-element stored list (a 2-part entry such as
the docstring's own `issue_date:2024-05-01`) raises `IndexError`.
`.ok none` models `continue` (caught `ValueError`), `.ok (some q)` the
reassignment of `date_filter_q`. -/
def dateStepResult (field : String) (lst : List String) :
    Except PyErr (Option PyQ) := do
  let low ← pyGet lst 0
  let high ← pyGet lst 1
  match pyFromIso low with
  | none => .ok none
  | some dlow =>
    if strFalsy high then
      .ok (some (PyQ.cond (field ++ "__gte") (.dateV dlow)))
    else
      match pyFromIso high with
      | none => .ok none
      | some dhigh =>
        .ok (some (PyQ.and (PyQ.cond (field ++ "__gte") (.dateV dlow))
          (PyQ.cond (field ++ "__lte") (.dateV dhigh))))

/-- `Q`-building loop of the new-style branch, carrying `date_filter_q`.
As in the amount filter, a successful iteration *reassigns* the
accumulator. -/
def dateBuildQ : List (String × List String) → PyQ → Except PyErr PyQ
  | [], q => .ok q
  | (field, lst) :: rest, q =>
    match dateStepResult field lst with
    | .error e => .error e
    | .ok none => dateBuildQ rest q
    | .ok (some q') => dateBuildQ rest q'

/-- `DateFilterBackend.filter_queryset`.  `view_date_field` models
`getattr(view, "date_field", custom_date_field)`: `some f` when the view
has the attribute set to the string `f`, `none` otherwise (in which case
the `custom_date_field` query parameter is the fallback). -/
def DateFilterBackend.filter_queryset (view_date_field : Option String)
    (params : List (String × String)) (queryset : QuerySet) :
    Except PyErr QuerySet :=
  let date_from := alookup params "date_from"
  let date_to := alookup params "date_to"
  let custom_date_field := alookup params "custom_date_field"
  let date_ranges_all := alookup params "date_ranges"
  if optTruthy date_from then
    -- deprecated old-style branch
    let date_field :=
      match view_date_field <|> custom_date_field with
      | some f => if strFalsy f then "created_at__date" else f
      | none => "created_at__date"
    match pyFromIso (date_from.getD "") with
    | none => .ok queryset
    | some dfrom =>
      if optTruthy date_to then
        match pyFromIso (date_to.getD "") with
        | none => .ok queryset
        | some dto =>
          .ok (qsFilter queryset
            (PyQ.and (PyQ.cond (date_field ++ "__gte") (.dateV dfrom))
              (PyQ.cond (date_field ++ "__lte") (.dateV dto))))
      else
        .ok (qsFilter queryset (PyQ.cond (date_field ++ "__gte") (.dateV dfrom)))
  else
    match date_ranges_all with
    | none => .ok queryset
    | some s =>
      if strFalsy s then .ok queryset
      else do
        let d := dateParseEntries (pySplit s ',') []
        let q ← dateBuildQ d PyQ.empty
        .ok (qsFilter queryset q)

/-! ## `ListConfigurationMixin` (src/django_drf_dynamics/lists/dynamic_lists.py) -/

/-- A list configuration dictionary, with the keys that
`_generate_default_list_configuration` produces. -/
structure ListConfig where
  fields : List String
  per_page : Int
  enable_search : Bool
  search_fields : List String
  enable_filters : Bool
  enable_sorting : Bool
  sorting_fields : List String
deriving DecidableEq, Repr

/-- The view-level state that `ListConfigurationMixin` reads:
`list_configurations`, `default_list_configuration`, the serializer's
field names (`get_serializer().fields.keys()`),
`hasattr(self, "filterset_metadata")` and
`getattr(self, "ordering_fields", ["id"])`. -/
structure ListView where
  list_configurations : List (String × ListConfig)
  default_list_configuration : String
  serializer_field_names : List String
  has_filterset_metadata : Bool
  ordering_fields : Option (List String)
deriving DecidableEq, Repr

/-- `ListConfigurationMixin._generate_default_list_configuration`. -/
def generate_default_list_configuration (v : ListView) : ListConfig :=
  { fields := v.serializer_field_names.take 10
    per_page := 25
    enable_search := false
    search_fields := []
    enable_filters := v.has_filterset_metadata
    enable_sorting := true
    sorting_fields := v.ordering_fields.getD ["id"] }

/-- `config_name = config_name or self.default_list_configuration`
(Python `or`: `None` and the empty string fall back to the default). -/
def resolveConfigName (v : ListView) (config_name : Option String) : String :=
  match config_name with
  | none => v.default_list_configuration
  | some s => if strFalsy s then v.default_list_configuration else s

/-- `ListConfigurationMixin.get_list_configuration`.  The raised
`ValidationError` message is modelled without the quote characters
around the name. -/
def get_list_configuration (v : ListView) (config_name : Option String) :
    Except PyErr ListConfig :=
  let name := resolveConfigName v config_name
  match alookup v.list_configurations name with
  | some c => .ok c
  | none =>
    if v.list_configurations.isEmpty then
      .ok (generate_default_list_configuration v)
    else
      .error (.validationError ("List configuration " ++ name ++ " not found"))

/-! ## `BaseListBackend.build_list_response`
(src/django_drf_dynamics/lists/list_backends.py) -/

/-- Python floor division `a // b` (`b = 0`, on which Python raises
`ZeroDivisionError`, is mapped to 0; no embedded call divides by 0 under
the stated hypotheses). -/
def pyFloorDiv (a b : Int) : Int :=
  if 0 ≤ b then a / b else (-a) / (-b)

/-- The `pagination` sub-dictionary of `build_list_response`. -/
structure Pagination where
  current_page : Int
  per_page : Int
  total_pages : Int
  total_count : Int
  has_next : Bool
  has_previous : Bool
  next_page : Option Int
  previous_page : Option Int
deriving DecidableEq, Repr

/-- The `meta` sub-dictionary of `build_list_response`.  `config_name`
comes from `getattr(config, "name", "default")` on a plain dict, which
has no `name` attribute, hence is always `"default"`. -/
structure ListMeta where
  config_name : String
  fields : List String
  search_enabled : Bool
  filters_enabled : Bool
  sorting_enabled : Bool
deriving DecidableEq, Repr

/-- The standardized response built by `build_list_response`; serialized
items are carried opaquely as strings. -/
structure ListResponse where
  data : List String
  pagination : Pagination
  meta : ListMeta
deriving DecidableEq, Repr

/-- `BaseListBackend.build_list_response`. -/
def build_list_response (items : List String) (total_count page per_page : Int)
    (config : ListConfig) : ListResponse :=
  let total_pages := pyFloorDiv (total_count + per_page - 1) per_page
  { data := items
    pagination :=
      { current_page := page
        per_page := per_page
        total_pages := total_pages
        total_count := total_count
        has_next := page < total_pages
        has_previous := page > 1
        next_page := if page < total_pages then some (page + 1) else none
        previous_page := if page > 1 then some (page - 1) else none }
    meta :=
      { config_name := "default"
        fields := config.fields
        search_enabled := config.enable_search
        filters_enabled := config.enable_filters
        sorting_enabled := config.enable_sorting } }

/-! ## `DynamicListMixin` caching and `dynamic_list`
(src/django_drf_dynamics/lists/dynamic_lists.py) -/

/-- The view-level state that `DynamicListMixin` adds on top of
`ListConfigurationMixin` (the field modelling `list_cache_key_prefix`
keeps its role under the name `list_cache_key_start`). -/
structure DynView where
  base : ListView
  enable_list_caching : Bool
  list_cache_timeout : Nat
  list_cache_key_start : String
  model_label : String
  user_id : String
deriving DecidableEq, Repr

/-- The Django cache, modelled as an association list mapping keys to
the stored value together with the timeout it was stored with. -/
abbrev PyCache := List (String × (ListResponse × Nat))

/-- `DynamicListMixin.get_list_cache_key`.  `hash(str(sorted(...)))` is
modelled by the concatenation of the rendered parameters, which keeps
the key a deterministic function of the same inputs. -/
def get_list_cache_key (v : DynView) (config_name : String)
    (page per_page : Int) (search ordering : String)
    (params : List (String × String)) : String :=
  let params_hash := String.intercalate ";"
    ((params.map (fun p => p.1 ++ "=" ++ p.2)) ++
      [toString page, toString per_page, search, ordering])
  v.list_cache_key_start ++ ":" ++ v.model_label ++ ":" ++ config_name ++ ":" ++
    v.user_id ++ ":" ++ params_hash

/-- `DynamicListMixin.get_cached_list_data`: `None` when
`enable_list_caching` is off, otherwise `cache.get(cache_key)`.  It
performs no write. -/
def get_cached_list_data (v : DynView) (cache : PyCache) (cache_key : String) :
    Option ListResponse :=
  if !v.enable_list_caching then none
  else (alookup cache cache_key).map Prod.fst

/-- `DynamicListMixin.set_cached_list_data`: writes
`cache.set(cache_key, data, timeout=self.list_cache_timeout)` when
`enable_list_caching` is on, and performs no cache operation at all
otherwise. -/
def set_cached_list_data (v : DynView) (cache : PyCache) (cache_key : String)
    (data : ListResponse) : PyCache :=
  if v.enable_list_caching then
    pyDictInsert cache cache_key (data, v.list_cache_timeout)
  else cache

/-- Modelled from the external stdlib: `int(s)` on a decimal string
literal with optional sign; `none` models a raised `ValueError`. -/
def pyIntParse (s : String) : Except PyErr Int :=
  let t := pyStrip s
  let neg :=
    match t.toList with
    | '-' :: _ => true
    | _ => false
  let body :=
    match t.toList with
    | '+' :: r => r
    | '-' :: r => r
    | r => r
  if body.isEmpty || !body.all Char.isDigit then
    .error (.valueError ("invalid literal for int: " ++ s))
  else
    let n : Int := body.foldl (fun acc c => 10 * acc + (digitVal c : Int)) 0
    .ok (if neg then -n else n)

/-- The `per_page` computation of `dynamic_list`:
`int(request.query_params.get("per_page", config.get("per_page", 25)))`
(`int` applied to the config's already-integral value is the
identity). -/
def dynamic_list_per_page (params : List (String × String))
    (config : ListConfig) : Except PyErr Int :=
  match alookup params "per_page" with
  | some s => pyIntParse s
  | none => .ok config.per_page

/-- The body of an HTTP response produced by `dynamic_list`. -/
inductive RespBody where
  | listData (d : ListResponse)
  | errorMsg (m : String)
deriving DecidableEq, Repr

/-- An HTTP response (status code and body). -/
structure HttpResp where
  status : Nat
  body : RespBody
deriving DecidableEq, Repr

/-- `DynamicListMixin.dynamic_list`.  The backend call
`backend.get_list_data(...)` is the injected `backendResult` argument
(`.error e` models the backend raising `e`, which the action's
`except Exception` turns into a 500).  The function returns the
response together with the cache state after the action. -/
def dynamic_list (v : DynView) (params : List (String × String))
    (cache : PyCache) (backendResult : Except PyErr ListResponse) :
    Except PyErr (HttpResp × PyCache) := do
  let config_name := (alookup params "config").getD v.base.default_list_configuration
  let page ← pyIntParse ((alookup params "page").getD "1")
  let search := (alookup params "search").getD ""
  let ordering := (alookup params "ordering").getD ""
  match get_list_configuration v.base (some config_name) with
  | .error (.validationError m) =>
    .ok (⟨400, .errorMsg m⟩, cache)
  | .error e => .error e
  | .ok config => do
    let per_page ← dynamic_list_per_page params config
    let cache_key := get_list_cache_key v config_name page per_page search ordering params
    match get_cached_list_data v cache cache_key with
    | some d => .ok (⟨200, .listData d⟩, cache)
    | none =>
      match backendResult with
      | .error _ => .ok (⟨500, .errorMsg "Error processing list data"⟩, cache)
      | .ok d =>
        .ok (⟨200, .listData d⟩, set_cached_list_data v cache cache_key d)

/-! ## `ApiRenderer` and `JSONEncoder`
(src/django_drf_dynamics/renderers.py) -/

/-- A Python object reaching `JSONEncoder.default` (i.e. one the base
encoder cannot serialize), or a string routed through the `str` branch.
`objWithDynamicJson` models an object exposing `get_drf_dynamic_json`,
whose call result is carried opaquely; `objOther` carries `str(obj)`.
The real/imaginary parts of a `complex` are carried opaquely as the
numeric literals Python would render. -/
inductive PyObj where
  | objWithDynamicJson (result : String)
  | objComplex (re im : String)
  | objDecimal (literal : String)
  | objDate (d : PyDate)
  | objDatetime (d : PyDate) (hour minute second : Nat)
  | objStr (s : String)
  | objOther (str_repr : String)
deriving DecidableEq, Repr

/-- What `JSONEncoder.default` returns. -/
inductive EncOut where
  | outJson (s : String)
  | outPair (re im : String)
  | outStr (s : String)
deriving DecidableEq, Repr

/-- Zero-padded two-digit rendering. -/
def pad2 (n : Nat) : String :=
  if n < 10 then "0" ++ toString n else toString n

/-- Zero-padded four-digit rendering. -/
def pad4 (n : Nat) : String :=
  if n < 10 then "000" ++ toString n
  else if n < 100 then "00" ++ toString n
  else if n < 1000 then "0" ++ toString n
  else toString n

/-- `date.isoformat()`. -/
def PyDate.isoformat (d : PyDate) : String :=
  pad4 d.year ++ "-" ++ pad2 d.month ++ "-" ++ pad2 d.day

/-- `JSONEncoder.default`.  The branch order follows the source:
`get_drf_dynamic_json` first, then `complex`, `Decimal`,
`date`/`datetime`, `str` (a UTF-8 round-trip, the identity on the valid
unicode strings Lean's `String` carries), and `str(obj)` for everything
else; `str(Decimal)` is modelled as the carried literal. -/
def JSONEncoder.default : PyObj → EncOut
  | .objWithDynamicJson r => .outJson r
  | .objComplex re im => .outPair re im
  | .objDecimal lit => .outStr lit
  | .objDate d => .outStr d.isoformat
  | .objDatetime d h mi s =>
    .outStr (d.isoformat ++ "T" ++ pad2 h ++ ":" ++ pad2 mi ++ ":" ++ pad2 s)
  | .objStr s => .outStr s
  | .objOther r => .outStr r

/-- A value stored in a response mapping: Python `None` or some
JSON-serializable value carried opaquely. -/
inductive RVal where
  | pyNone
  | pyV (tag : String)
deriving DecidableEq, Repr

/-- The payload handed to `ApiRenderer.render`: a mapping (something
with a `.get` attribute) or any other object. -/
inductive RenderData where
  | rmap (m : List (String × RVal))
  | rother (tag : String)
deriving DecidableEq, Repr

/-- What `ApiRenderer.render` returns: `json.dumps` of the reshaped
results dictionary, the default `JSONRenderer` output on the original
data, or `json.dumps({"object": data})`. -/
inductive Rendered where
  | dumpsReshaped (m : List (String × RVal))
  | defaultRendered (m : List (String × RVal))
  | dumpsWrapped (d : RenderData)
deriving DecidableEq, Repr

/-- `data.get(k, None)`. -/
def rmapGet (m : List (String × RVal)) (k : String) : RVal :=
  (alookup m k).getD .pyNone

/-- `data[k]` on the mapping (raises `KeyError`, modelled as
`valueError` with the key in the message, when the key is absent). -/
def rmapItem (m : List (String × RVal)) (k : String) : Except PyErr RVal :=
  match alookup m k with
  | some v => .ok v
  | none => .error (.valueError ("KeyError: " ++ k))

/-- `ApiRenderer.render`. -/
def ApiRenderer.render (data : RenderData) : Except PyErr Rendered :=
  match data with
  | .rother _ => .ok (.dumpsWrapped data)
  | .rmap m =>
    if rmapGet m "results" ≠ .pyNone then do
      let cnt ← rmapItem m "count"
      let nxt ← rmapItem m "next"
      let prv ← rmapItem m "previous"
      let base := [("objects", rmapGet m "results"), ("count", cnt),
        ("next_page", nxt), ("prev_page", prv)]
      let out := if rmapGet m "facets" ≠ .pyNone then
        base ++ [("facets", rmapGet m "facets")] else base
      .ok (.dumpsReshaped out)
    else if rmapGet m "errors" ≠ .pyNone then
      .ok (.defaultRendered m)
    else
      .ok (.dumpsWrapped data)

/-! ## `RealtimeListMixin` and `WebSocketListBackend`
(src/django_drf_dynamics/lists/dynamic_lists.py,
src/django_drf_dynamics/lists/list_backends.py) -/

/-- The view-level state that `RealtimeListMixin` reads. -/
structure RtView where
  base : ListView
  realtime_group_name : Option String
  model_label : String
  enable_realtime : Bool
  realtime_events : List String
deriving DecidableEq, Repr

/-- `RealtimeListMixin.get_realtime_group_name`:
`self.realtime_group_name or self.queryset.model._meta.label_lower`,
suffixed with `_<config_name>` when a truthy configuration name is
given. -/
def get_realtime_group_name (v : RtView) (config_name : Option String) : String :=
  let base_name :=
    match v.realtime_group_name with
    | some s => if strFalsy s then v.model_label else s
    | none => v.model_label
  match config_name with
  | some c => if strFalsy c then base_name else base_name ++ "_" ++ c
  | none => base_name

/-- The subscription payload returned by `subscribe_realtime_updates`
(the nested `instructions` dictionary is carried through its `connect`
string). -/
structure SubscriptionData where
  group_name : String
  config_name : String
  events : List String
  websocket_url : String
  connect_instruction : String
deriving DecidableEq, Repr

/-- The response of `subscribe_realtime_updates`. -/
inductive SubscribeResp where
  | err400 (m : String)
  | subscription (s : SubscriptionData)
deriving DecidableEq, Repr

/-- `RealtimeListMixin.subscribe_realtime_updates`.  `body_config` and
`body_events` model `request.data.get("config"/"events", default)`. -/
def subscribe_realtime_updates (v : RtView) (body_config : Option String)
    (body_events : Option (List String)) : SubscribeResp :=
  if !v.enable_realtime then
    .err400 "Real-time updates are not enabled"
  else
    let config_name := body_config.getD v.base.default_list_configuration
    let events := body_events.getD v.realtime_events
    match get_list_configuration v.base (some config_name) with
    | .error (.validationError m) => .err400 m
    | .error _ => .err400 "unreachable"
    | .ok _ =>
      let group_name := get_realtime_group_name v (some config_name)
      .subscription
        { group_name := group_name
          config_name := config_name
          events := events
          websocket_url := "/ws/lists/" ++ group_name ++ "/"
          connect_instruction :=
            "Connect to WebSocket at: /ws/lists/" ++ group_name ++ "/" }

/-- `WebSocketListBackend._get_websocket_group_name`:
`f"list_{model_name}_{config_name}"` where
`config_name = getattr(config, "name", "default")` on a plain dict,
which has no `name` attribute, hence is always `"default"`. -/
def get_websocket_group_name (model_label : String) : String :=
  "list_" ++ model_label ++ "_" ++ "default"

/-- The dictionary returned by `WebSocketListBackend._get_websocket_info`
in the available case (`protocols` and the subscribe/unsubscribe
instructions are constants reproduced in the obvious way). -/
structure WsInfo where
  available : Bool
  group_name : String
  url : String
  connect_instruction : String
  events : List String
deriving DecidableEq, Repr

/-- `WebSocketListBackend._get_websocket_info`.  The two `channels`
availability checks are modelled by the boolean arguments; the
unavailable cases return an error dictionary without a URL. -/
def get_websocket_info (channels_installed channel_layer_configured : Bool)
    (model_label : String) (view_realtime_events : Option (List String)) :
    Except String WsInfo :=
  if !channels_installed then .error "Channels not installed"
  else if !channel_layer_configured then .error "Channel layer not configured"
  else
    let group_name := get_websocket_group_name model_label
    .ok
      { available := true
        group_name := group_name
        url := "/ws/lists/" ++ group_name ++ "/"
        connect_instruction := "Connect to WebSocket at: /ws/lists/" ++ group_name ++ "/"
        events := view_realtime_events.getD ["create", "update", "delete"] }

/-! ## `ListOverviewAPIViewMixin.objects_overview`
(src/django_drf_dynamics/views/views_mixins.py) -/

/-- `ListOverviewAPIViewMixin.OVERVIEW_LIST_LENGTH`. -/
def OVERVIEW_LIST_LENGTH : Nat := 4

/-- The value returned by a subclass's `get_objects_overview_data`:
a Python list (of overview entries, carried opaquely) or any non-list
object. -/
inductive OverviewResult where
  | pyList (l : List String)
  | nonList (tag : String)
deriving DecidableEq, Repr

/-- `ListOverviewAPIViewMixin.objects_overview`, with the result of
`self.get_objects_overview_data()` injected.  A successful return is the
`Response(overview_list)` body. -/
def objects_overview (overview : OverviewResult) : Except PyErr (List String) :=
  match overview with
  | .nonList _ =>
    .error (.runtimeError
      "Overview data from function get_objects_overview_data must be instance of list.")
  | .pyList l =>
    if l.length > OVERVIEW_LIST_LENGTH then
      .error (.runtimeError "Overview data length max is 4.")
    else
      .ok l

/-- An `Except` computation that did not raise. -/
def exceptOk (r : Except PyErr (Option PyQ)) : Bool :=
  match r with
  | .error _ => false
  | .ok _ => true

/-! ## Theorems -/

/-- Monadic bind on a successful `Except` step. -/
theorem except_ok_bind {α β : Type} (a : α) (k : α → Except PyErr β) :
    (Except.ok a >>= k) = k a := rfl

/-- The `Q`-building fold of the amount filter ends with whatever the
last successfully parsed item reassigns, independently of the
accumulator and of all earlier items. -/
theorem amountBuildQ_append (d : List (String × List (Option String)))
    (f : String) (lst : List (Option String)) (q' : PyQ)
    (hall : ∀ p ∈ d, exceptOk (amountStepResult p.1 p.2) = true)
    (hlast : amountStepResult f lst = .ok (some q')) :
    ∀ q0, amountBuildQ (d ++ [(f, lst)]) q0 = .ok q' := by
  induction d with
  | nil => intro q0; simp [amountBuildQ, hlast]
  | cons p rest ih =>
    intro q0
    obtain ⟨g, l⟩ := p
    have hp := hall ⟨g, l⟩ (List.mem_cons_self _ _)
    have hrest := fun p hp' => hall p (List.mem_cons_of_mem _ hp')
    cases hr : amountStepResult g l with
    | error e => rw [hr] at hp; simp [exceptOk] at hp
    | ok o =>
      cases o with
      | none => simpa [amountBuildQ, hr] using ih hrest q0
      | some q1 => simpa [amountBuildQ, hr] using ih hrest q1

/-- The `Q`-building fold of the date filter ends with whatever the last
successfully parsed item reassigns, independently of the accumulator and
of all earlier items. -/
theorem dateBuildQ_append (d : List (String × List String))
    (f : String) (lst : List String) (q' : PyQ)
    (hall : ∀ p ∈ d, exceptOk (dateStepResult p.1 p.2) = true)
    (hlast : dateStepResult f lst = .ok (some q')) :
    ∀ q0, dateBuildQ (d ++ [(f, lst)]) q0 = .ok q' := by
  induction d with
  | nil => intro q0; simp [dateBuildQ, hlast]
  | cons p rest ih =>
    intro q0
    obtain ⟨g, l⟩ := p
    have hp := hall ⟨g, l⟩ (List.mem_cons_self _ _)
    have hrest := fun p hp' => hall p (List.mem_cons_of_mem _ hp')
    cases hr : dateStepResult g l with
    | error e => rw [hr] at hp; simp [exceptOk] at hp
    | ok o =>
      cases o with
      | none => simpa [dateBuildQ, hr] using ih hrest q0
      | some q1 => simpa [dateBuildQ, hr] using ih hrest q1

/-- C2: when the `amount_ranges` (resp. `date_ranges`) parameter parses
into dict entries for more than one field and none of the iterations
raises, the applied filter is *only* the `Q` constraint reassigned by
the last entry iterated over; the constraints of all earlier fields are
discarded. -/
theorem c2_range_filters_last_entry_wins :
    (∀ (params : List (String × String)) (s : String)
      (d : List (String × List (Option String))) (f : String)
      (lst : List (Option String)) (q' : PyQ) (qs : QuerySet),
      alookup params "amount_ranges" = some s → strFalsy s = false →
      amountParseEntries (pySplit s ',') [] = .ok (d ++ [(f, lst)]) →
      d ≠ [] →
      (∀ p ∈ d, exceptOk (amountStepResult p.1 p.2) = true) →
      amountStepResult f lst = .ok (some q') →
      AmountFilterBackend.filter_queryset params qs = .ok (qs ++ [q']))
    ∧ (∀ (view_date_field : Option String) (params : List (String × String))
      (s : String) (d : List (String × List String)) (f : String)
      (lst : List String) (q' : PyQ) (qs : QuerySet),
      optTruthy (alookup params "date_from") = false →
      alookup params "date_ranges" = some s → strFalsy s = false →
      dateParseEntries (pySplit s ',') [] = d ++ [(f, lst)] →
      d ≠ [] →
      (∀ p ∈ d, exceptOk (dateStepResult p.1 p.2) = true) →
      dateStepResult f lst = .ok (some q') →
      DateFilterBackend.filter_queryset view_date_field params qs
        = .ok (qs ++ [q'])) := by
  constructor
  · intro params s d f lst q' qs h1 h2 h3 _h4 h5 h6
    unfold AmountFilterBackend.filter_queryset
    rw [h1]
    simp only [h2, Bool.false_eq_true, if_false]
    rw [h3]
    have hne : (d ++ [(f, lst)]).isEmpty = false := by cases d <;> rfl
    simp only [except_ok_bind, hne, Bool.false_eq_true, if_false,
      amountBuildQ_append d f lst q' h5 h6 PyQ.empty]
    rfl
  · intro vdf params s d f lst q' qs h0 h1 h2 h3 _h4 h5 h6
    unfold DateFilterBackend.filter_queryset
    simp only [h0, Bool.false_eq_true, if_false]
    rw [h1]
    simp only [except_ok_bind, h2, Bool.false_eq_true, if_false, h3,
      dateBuildQ_append d f lst q' h5 h6 PyQ.empty]
    rfl

/-- C2 witness: two well-formed fields in each parameter; the returned
queryset carries exactly the constraint of the second (last) field. -/
theorem c2_range_filters_last_entry_wins_witness :
    AmountFilterBackend.filter_queryset
      [("amount_ranges", "a:1-2,b:3-4")] []
      = .ok [PyQ.and (PyQ.cond "b__gte" (.decV "3"))
          (PyQ.cond "b__lte" (.decV "4"))]
    ∧ DateFilterBackend.filter_queryset none
      [("date_ranges", "a:2023-01-12:2023-02-23,b:1994-09-12:1995-03-25")] []
      = .ok [PyQ.and (PyQ.cond "b__gte" (.dateV ⟨1994, 9, 12⟩))
          (PyQ.cond "b__lte" (.dateV ⟨1995, 3, 25⟩))] := by
  constructor
  · exact c2_range_filters_last_entry_wins.1
      [("amount_ranges", "a:1-2,b:3-4")] "a:1-2,b:3-4"
      [("a", [some "1", some "2"])] "b" [some "3", some "4"]
      (PyQ.and (PyQ.cond "b__gte" (.decV "3")) (PyQ.cond "b__lte" (.decV "4")))
      [] rfl rfl (by decide) (by decide) (by decide) (by decide)
  · exact c2_range_filters_last_entry_wins.2 none
      [("date_ranges", "a:2023-01-12:2023-02-23,b:1994-09-12:1995-03-25")]
      "a:2023-01-12:2023-02-23,b:1994-09-12:1995-03-25"
      [("a", ["2023-01-12", "2023-02-23"])] "b" ["1994-09-12", "1995-03-25"]
      (PyQ.and (PyQ.cond "b__gte" (.dateV ⟨1994, 9, 12⟩))
        (PyQ.cond "b__lte" (.dateV ⟨1995, 3, 25⟩)))
      [] rfl rfl rfl (by decide) (by decide) (by decide) (by decide)

/-- C1: the claim states that every malformed `amount_ranges` /
`date_ranges` entry is silently skipped and the filters never raise.
The code instead raises `IndexError` on an amount entry without `:`
(`amount_range_elements[1]`), on a single-bound amount range
(`amount_range_element_split[1] = None`, an out-of-range list
assignment whose comment shows the skip/None intent), and on a
single-bound date range (`date_list[1]` on a one-element list) — the
last being the date filter docstring's own example
`issue_date:2024-05-01`.  This theorem evaluates the embedded code at
those failing inputs. -/
theorem c1_filters_raise_instead_of_skipping :
    AmountFilterBackend.filter_queryset [("amount_ranges", "foo")] []
      = .error .indexError
    ∧ AmountFilterBackend.filter_queryset [("amount_ranges", "price:100")] []
      = .error .indexError
    ∧ DateFilterBackend.filter_queryset none
        [("date_ranges", "issue_date:2024-05-01")] [] = .error .indexError := by
  refine ⟨?_, ?_, ?_⟩ <;> decide

/-- C3: `get_list_configuration` returns `list_configurations[name]`
when the (resolved) name is a key; returns the generated default
configuration (first 10 serializer field names, `per_page` 25, search
disabled, sorting enabled) when `list_configurations` is empty; and
raises `ValidationError` when `list_configurations` is non-empty but
lacks the name. -/
theorem c3_get_list_configuration_cases :
    (∀ (v : ListView) (name : Option String) (c : ListConfig),
      alookup v.list_configurations (resolveConfigName v name) = some c →
      get_list_configuration v name = .ok c)
    ∧ (∀ (v : ListView) (name : Option String),
      v.list_configurations = [] →
      get_list_configuration v name = .ok (generate_default_list_configuration v)
      ∧ (generate_default_list_configuration v).fields
          = v.serializer_field_names.take 10
      ∧ (generate_default_list_configuration v).per_page = 25
      ∧ (generate_default_list_configuration v).enable_search = false
      ∧ (generate_default_list_configuration v).enable_sorting = true)
    ∧ (∀ (v : ListView) (name : Option String),
      v.list_configurations ≠ [] →
      alookup v.list_configurations (resolveConfigName v name) = none →
      get_list_configuration v name = .error (.validationError
        ("List configuration " ++ resolveConfigName v name ++ " not found"))) := by
  refine ⟨?_, ?_, ?_⟩
  · intro v name c h
    simp [get_list_configuration, h]
  · intro v name h
    refine ⟨?_, rfl, rfl, rfl, rfl⟩
    simp [get_list_configuration, h, alookup]
  · intro v name h hnone
    simp [get_list_configuration, hnone, h]

/-- C3 witness: the three cases at concrete views. -/
theorem c3_get_list_configuration_cases_witness :
    get_list_configuration
      ⟨[("compact", ⟨["id"], 20, true, ["name"], true, true, ["name"]⟩)],
        "default", ["id", "name"], false, none⟩ (some "compact")
      = .ok ⟨["id"], 20, true, ["name"], true, true, ["name"]⟩
    ∧ get_list_configuration ⟨[], "default", ["id", "name"], false, none⟩ none
      = .ok (generate_default_list_configuration
          ⟨[], "default", ["id", "name"], false, none⟩)
    ∧ get_list_configuration
      ⟨[("compact", ⟨["id"], 20, true, ["name"], true, true, ["name"]⟩)],
        "default", ["id", "name"], false, none⟩ (some "missing")
      = .error (.validationError "List configuration missing not found") := by
  refine ⟨?_, ?_, ?_⟩
  · exact c3_get_list_configuration_cases.1 _ (some "compact") _ (by decide)
  · exact (c3_get_list_configuration_cases.2.1 _ none rfl).1
  · exact c3_get_list_configuration_cases.2.2 _ (some "missing")
      (by decide) (by decide)

/-- C5: when `date_from` is present (truthy) but not a valid ISO date —
or `date_from` is present and `date_to` is present but invalid — the
date filter returns the queryset unchanged, without raising and without
applying any partial filter. -/
theorem c5_invalid_date_returns_queryset_unchanged :
    ∀ (view_date_field : Option String) (params : List (String × String))
      (qs : QuerySet) (s : String),
      alookup params "date_from" = some s → strFalsy s = false →
      (pyFromIso s = none ∨
        (∃ t, alookup params "date_to" = some t ∧ strFalsy t = false ∧
          pyFromIso t = none)) →
      DateFilterBackend.filter_queryset view_date_field params qs = .ok qs := by
  intro vdf params qs s hfrom hne hbad
  unfold DateFilterBackend.filter_queryset
  rw [hfrom]
  simp only [optTruthy, hne, Bool.not_false, if_true]
  cases hlow : pyFromIso s with
  | none => simp [hlow]
  | some dfrom =>
    rcases hbad with hbad | ⟨t, hto, htne, htbad⟩
    · exact absurd (hlow ▸ hbad) (by simp)
    · rw [hto]
      simp [optTruthy, htne, hlow, htbad]

/-- C5 witness: an invalid `date_from`, and a valid `date_from` with an
invalid `date_to`. -/
theorem c5_invalid_date_returns_queryset_unchanged_witness :
    DateFilterBackend.filter_queryset none [("date_from", "not-a-date")] []
      = .ok []
    ∧ DateFilterBackend.filter_queryset none
        [("date_from", "2023-11-27"), ("date_to", "2023-13-99")] [] = .ok [] := by
  constructor
  · exact c5_invalid_date_returns_queryset_unchanged none _ [] "not-a-date"
      rfl rfl (Or.inl rfl)
  · exact c5_invalid_date_returns_queryset_unchanged none _ [] "2023-11-27"
      rfl rfl (Or.inr ⟨"2023-13-99", rfl, rfl, rfl⟩)

/-- C6: with `enable_list_caching` off, `get_cached_list_data` is
constantly `None` and `set_cached_list_data` leaves the cache untouched;
with it on, `set_cached_list_data` stores the data under the key with
timeout exactly `list_cache_timeout` (and performs no other cache
operation — the two functions are fully characterized here, and
`get_cached_list_data` never writes). -/
theorem c6_list_caching_semantics :
    (∀ (v : DynView) (cache : PyCache) (key : String),
      v.enable_list_caching = false → get_cached_list_data v cache key = none)
    ∧ (∀ (v : DynView) (cache : PyCache) (key : String) (data : ListResponse),
      v.enable_list_caching = false → set_cached_list_data v cache key data = cache)
    ∧ (∀ (v : DynView) (cache : PyCache) (key : String) (data : ListResponse),
      v.enable_list_caching = true →
      set_cached_list_data v cache key data
        = pyDictInsert cache key (data, v.list_cache_timeout)) := by
  refine ⟨?_, ?_, ?_⟩
  · intro v cache key h; simp [get_cached_list_data, h]
  · intro v cache key data h; simp [set_cached_list_data, h]
  · intro v cache key data h; simp [set_cached_list_data, h]

/-- C6 witness: the three behaviors at a concrete view and cache. -/
theorem c6_list_caching_semantics_witness :
    get_cached_list_data
      ⟨⟨[], "default", [], false, none⟩, false, 300, "dynamic_list", "m", "anon"⟩
      [] "k" = none
    ∧ set_cached_list_data
      ⟨⟨[], "default", [], false, none⟩, false, 300, "dynamic_list", "m", "anon"⟩
      [] "k" (build_list_response [] 0 1 25 ⟨[], 25, false, [], false, true, []⟩)
      = []
    ∧ set_cached_list_data
      ⟨⟨[], "default", [], false, none⟩, true, 300, "dynamic_list", "m", "anon"⟩
      [] "k" (build_list_response [] 0 1 25 ⟨[], 25, false, [], false, true, []⟩)
      = [("k", (build_list_response [] 0 1 25 ⟨[], 25, false, [], false, true, []⟩,
          300))] := by
  refine ⟨?_, ?_, ?_⟩
  · exact c6_list_caching_semantics.1 _ [] "k" rfl
  · exact c6_list_caching_semantics.2.1 _ [] "k" _ rfl
  · exact c6_list_caching_semantics.2.2 _ [] "k" _ rfl

/-- C10: `objects_overview` raises `RuntimeError` when
`get_objects_overview_data` returns a non-list, raises `RuntimeError`
when it returns a list longer than `OVERVIEW_LIST_LENGTH` (4), and for
every list of at most 4 elements returns that list unchanged as the
response body. -/
theorem c10_objects_overview_cases :
    (∀ t, objects_overview (.nonList t) = .error (.runtimeError
      "Overview data from function get_objects_overview_data must be instance of list."))
    ∧ (∀ l, l.length > OVERVIEW_LIST_LENGTH →
      objects_overview (.pyList l)
        = .error (.runtimeError "Overview data length max is 4."))
    ∧ (∀ l, l.length ≤ OVERVIEW_LIST_LENGTH →
      objects_overview (.pyList l) = .ok l) := by
  refine ⟨fun t => rfl, ?_, ?_⟩
  · intro l h; simp [objects_overview, h]
  · intro l h; simp [objects_overview, Nat.not_lt.mpr h]

/-- C10 witness: a five-element list is rejected and a four-element list
is returned unchanged. -/
theorem c10_objects_overview_cases_witness :
    objects_overview (.pyList ["a", "b", "c", "d", "e"])
      = .error (.runtimeError "Overview data length max is 4.")
    ∧ objects_overview (.pyList ["a", "b", "c", "d"]) = .ok ["a", "b", "c", "d"] := by
  constructor
  · exact c10_objects_overview_cases.2.1 _ (by decide)
  · exact c10_objects_overview_cases.2.2 _ (by decide)

/-- C4: `dynamic_list` reports errors as HTTP 400/500 responses: a
missing configuration name (the `ValidationError` case of
`get_list_configuration`) yields status 400 with an error body; any
exception raised by the list backend while producing the list data
yields status 500 with an error body; and otherwise (on a cache miss)
the backend's list data is returned as the response body. -/
theorem c4_dynamic_list_http_error_reporting :
    (∀ (v : DynView) (params : List (String × String)) (cache : PyCache)
      (br : Except PyErr ListResponse) (p : Int) (m : String),
      pyIntParse ((alookup params "page").getD "1") = .ok p →
      get_list_configuration v.base
        (some ((alookup params "config").getD v.base.default_list_configuration))
        = .error (.validationError m) →
      dynamic_list v params cache br = .ok (⟨400, .errorMsg m⟩, cache))
    ∧ (∀ (v : DynView) (params : List (String × String)) (cache : PyCache)
      (e : PyErr) (p pp : Int) (config : ListConfig),
      pyIntParse ((alookup params "page").getD "1") = .ok p →
      get_list_configuration v.base
        (some ((alookup params "config").getD v.base.default_list_configuration))
        = .ok config →
      dynamic_list_per_page params config = .ok pp →
      get_cached_list_data v cache
        (get_list_cache_key v
          ((alookup params "config").getD v.base.default_list_configuration)
          p pp ((alookup params "search").getD "")
          ((alookup params "ordering").getD "") params) = none →
      dynamic_list v params cache (.error e)
        = .ok (⟨500, .errorMsg "Error processing list data"⟩, cache))
    ∧ (∀ (v : DynView) (params : List (String × String)) (cache : PyCache)
      (d : ListResponse) (p pp : Int) (config : ListConfig),
      pyIntParse ((alookup params "page").getD "1") = .ok p →
      get_list_configuration v.base
        (some ((alookup params "config").getD v.base.default_list_configuration))
        = .ok config →
      dynamic_list_per_page params config = .ok pp →
      get_cached_list_data v cache
        (get_list_cache_key v
          ((alookup params "config").getD v.base.default_list_configuration)
          p pp ((alookup params "search").getD "")
          ((alookup params "ordering").getD "") params) = none →
      dynamic_list v params cache (.ok d)
        = .ok (⟨200, .listData d⟩,
            set_cached_list_data v cache
              (get_list_cache_key v
                ((alookup params "config").getD v.base.default_list_configuration)
                p pp ((alookup params "search").getD "")
                ((alookup params "ordering").getD "") params) d)) := by
  refine ⟨?_, ?_, ?_⟩
  · intro v params cache br p m hpage hconf
    unfold dynamic_list
    rw [hpage]
    simp only [except_ok_bind, hconf]
  · intro v params cache e p pp config hpage hconf hpp hmiss
    unfold dynamic_list
    rw [hpage]
    simp only [except_ok_bind, hconf]
    rw [hpp]
    simp only [except_ok_bind, hmiss]
  · intro v params cache d p pp config hpage hconf hpp hmiss
    unfold dynamic_list
    rw [hpage]
    simp only [except_ok_bind, hconf]
    rw [hpp]
    simp only [except_ok_bind, hmiss]

/-- C4 witness: the 400 case for a missing configuration name, the 500
case for a raising backend, and the 200 case for a succeeding backend,
at a concrete view with caching disabled. -/
theorem c4_dynamic_list_http_error_reporting_witness :
    dynamic_list
      ⟨⟨[("compact", ⟨["id"], 20, true, ["name"], true, true, ["name"]⟩)],
          "default", ["id"], false, none⟩, false, 300, "dynamic_list", "m", "anon"⟩
      [("config", "missing")] [] (.error .indexError)
      = .ok (⟨400, .errorMsg "List configuration missing not found"⟩, [])
    ∧ dynamic_list
      ⟨⟨[("compact", ⟨["id"], 20, true, ["name"], true, true, ["name"]⟩)],
          "default", ["id"], false, none⟩, false, 300, "dynamic_list", "m", "anon"⟩
      [("config", "compact")] [] (.error .indexError)
      = .ok (⟨500, .errorMsg "Error processing list data"⟩, [])
    ∧ dynamic_list
      ⟨⟨[("compact", ⟨["id"], 20, true, ["name"], true, true, ["name"]⟩)],
          "default", ["id"], false, none⟩, false, 300, "dynamic_list", "m", "anon"⟩
      [("config", "compact")] []
      (.ok (build_list_response [] 0 1 20 ⟨["id"], 20, true, ["name"], true, true, ["name"]⟩))
      = .ok (⟨200, .listData (build_list_response [] 0 1 20
          ⟨["id"], 20, true, ["name"], true, true, ["name"]⟩)⟩, []) := by
  refine ⟨?_, ?_, ?_⟩
  · exact c4_dynamic_list_http_error_reporting.1 _ _ [] _ 1
      "List configuration missing not found" (by decide) (by decide)
  · exact c4_dynamic_list_http_error_reporting.2.1 _ _ [] .indexError 1 20
      ⟨["id"], 20, true, ["name"], true, true, ["name"]⟩
      (by decide) (by decide) (by decide) rfl
  · exact c4_dynamic_list_http_error_reporting.2.2 _ _ [] _ 1 20
      ⟨["id"], 20, true, ["name"], true, true, ["name"]⟩
      (by decide) (by decide) (by decide) rfl

/-- C7: `ApiRenderer.render` produces exactly one of three shapes: a
mapping whose `results` value is non-`None` (and which, as in the
paginator's output, carries `count`/`next`/`previous`) is rewritten to
the `objects`/`count`/`next_page`/`prev_page` dictionary with `facets`
added when present and non-`None`; a mapping whose `errors` value is
non-`None` is delegated to the default JSON renderer; and any other
payload is wrapped as the single-key `object` dictionary.  The custom
encoder renders `Decimal` values as strings, `date`/`datetime` values in
ISO format, and `complex` values as the two-element list
`[real, imag]`. -/
theorem c7_api_renderer_shapes :
    (∀ (m : List (String × RVal)) (r cnt nxt prv : RVal),
      rmapGet m "results" = r → r ≠ .pyNone →
      rmapItem m "count" = .ok cnt →
      rmapItem m "next" = .ok nxt →
      rmapItem m "previous" = .ok prv →
      ApiRenderer.render (.rmap m) = .ok (.dumpsReshaped
        (if rmapGet m "facets" ≠ RVal.pyNone then
          [("objects", r), ("count", cnt), ("next_page", nxt),
            ("prev_page", prv), ("facets", rmapGet m "facets")]
        else
          [("objects", r), ("count", cnt), ("next_page", nxt),
            ("prev_page", prv)])))
    ∧ (∀ (m : List (String × RVal)),
      rmapGet m "results" = .pyNone → rmapGet m "errors" ≠ .pyNone →
      ApiRenderer.render (.rmap m) = .ok (.defaultRendered m))
    ∧ (∀ (m : List (String × RVal)),
      rmapGet m "results" = .pyNone → rmapGet m "errors" = .pyNone →
      ApiRenderer.render (.rmap m) = .ok (.dumpsWrapped (.rmap m)))
    ∧ (∀ (t : String),
      ApiRenderer.render (.rother t) = .ok (.dumpsWrapped (.rother t)))
    ∧ (∀ (lit : String), JSONEncoder.default (.objDecimal lit) = .outStr lit)
    ∧ (∀ (d : PyDate), JSONEncoder.default (.objDate d) = .outStr d.isoformat)
    ∧ (∀ (d : PyDate) (h mi s : Nat),
      JSONEncoder.default (.objDatetime d h mi s)
        = .outStr (d.isoformat ++ "T" ++ pad2 h ++ ":" ++ pad2 mi ++ ":" ++ pad2 s))
    ∧ (∀ (re im : String),
      JSONEncoder.default (.objComplex re im) = .outPair re im) := by
  refine ⟨?_, ?_, ?_, fun t => rfl, fun lit => rfl, fun d => rfl,
    fun d h mi s => rfl, fun re im => rfl⟩
  · intro m r cnt nxt prv hres hr hcnt hnxt hprv
    simp only [ApiRenderer.render]
    rw [hres, if_pos hr, hcnt, hnxt, hprv]
    simp only [except_ok_bind]
    rfl
  · intro m hres herr
    simp only [ApiRenderer.render]
    rw [hres]
    simp only [ne_eq, not_true_eq_false, if_false, reduceIte]
    rw [if_pos herr]
  · intro m hres herr
    simp only [ApiRenderer.render]
    rw [hres]
    simp [herr]

/-- C7 witness: the three shapes and the three encoder rules at concrete
inputs. -/
theorem c7_api_renderer_shapes_witness :
    ApiRenderer.render (.rmap [("results", .pyV "r"), ("count", .pyV "c"),
        ("next", .pyNone), ("previous", .pyNone)])
      = .ok (.dumpsReshaped [("objects", .pyV "r"), ("count", .pyV "c"),
          ("next_page", .pyNone), ("prev_page", .pyNone)])
    ∧ ApiRenderer.render (.rmap [("errors", .pyV "e")])
      = .ok (.defaultRendered [("errors", .pyV "e")])
    ∧ ApiRenderer.render (.rmap [("detail", .pyV "x")])
      = .ok (.dumpsWrapped (.rmap [("detail", .pyV "x")])) := by
  refine ⟨?_, ?_, ?_⟩
  · exact c7_api_renderer_shapes.1 _ (.pyV "r") (.pyV "c") .pyNone .pyNone
      rfl (by decide) rfl rfl rfl
  · exact c7_api_renderer_shapes.2.1 _ rfl (by decide)
  · exact c7_api_renderer_shapes.2.2.1 _ rfl rfl

/-- C8: every WebSocket endpoint URL handed to clients has the form
`/ws/lists/<group_name>/`: the `websocket_url` of a successful
`subscribe_realtime_updates` uses the group name derived by
`get_realtime_group_name` (the view's realtime group name, or the model
label, suffixed with the configuration name), and the `url` of
`_get_websocket_info` uses `_get_websocket_group_name`, i.e. the model
label plus the configuration name. -/
theorem c8_websocket_url_shape :
    (∀ (v : RtView) (bc : Option String) (be : Option (List String))
      (sub : SubscriptionData),
      subscribe_realtime_updates v bc be = .subscription sub →
      sub.websocket_url = "/ws/lists/" ++ sub.group_name ++ "/"
      ∧ sub.group_name = get_realtime_group_name v
          (some (bc.getD v.base.default_list_configuration))
      ∧ sub.connect_instruction
          = "Connect to WebSocket at: /ws/lists/" ++ sub.group_name ++ "/")
    ∧ (∀ (ci cl : Bool) (label : String) (evs : Option (List String))
      (info : WsInfo),
      get_websocket_info ci cl label evs = .ok info →
      info.url = "/ws/lists/" ++ info.group_name ++ "/"
      ∧ info.group_name = get_websocket_group_name label
      ∧ get_websocket_group_name label = "list_" ++ label ++ "_" ++ "default") := by
  constructor
  · intro v bc be sub h
    unfold subscribe_realtime_updates at h
    cases hen : v.enable_realtime with
    | false => rw [hen] at h; simp at h
    | true =>
      rw [hen] at h
      simp only [Bool.not_true, Bool.false_eq_true, if_false] at h
      cases hc : get_list_configuration v.base
          (some (bc.getD v.base.default_list_configuration)) with
      | error e =>
        rw [hc] at h
        cases e <;> simp at h
      | ok config =>
        rw [hc] at h
        simp only [SubscribeResp.subscription.injEq] at h
        subst h
        exact ⟨rfl, rfl, rfl⟩
  · intro ci cl label evs info h
    unfold get_websocket_info at h
    cases ci with
    | false => simp at h
    | true =>
      cases cl with
      | false => simp at h
      | true =>
        simp only [Bool.not_true, Bool.false_eq_true, if_false, Except.ok.injEq] at h
        subst h
        exact ⟨rfl, rfl, rfl⟩

/-- C8 witness: a concrete subscription and a concrete websocket-info
dictionary. -/
theorem c8_websocket_url_shape_witness :
    ("/ws/lists/products_compact/" = "/ws/lists/" ++ "products_compact" ++ "/"
      ∧ "products_compact" = get_realtime_group_name
          ⟨⟨[("compact", ⟨["id"], 20, true, ["name"], true, true, ["name"]⟩)],
              "default", ["id"], false, none⟩,
            some "products", "shop.product", true, ["create"]⟩ (some "compact")
      ∧ "Connect to WebSocket at: /ws/lists/products_compact/"
          = "Connect to WebSocket at: /ws/lists/" ++ "products_compact" ++ "/")
    ∧ ("/ws/lists/list_shop.product_default/"
        = "/ws/lists/" ++ "list_shop.product_default" ++ "/"
      ∧ "list_shop.product_default" = get_websocket_group_name "shop.product"
      ∧ get_websocket_group_name "shop.product"
          = "list_" ++ "shop.product" ++ "_" ++ "default") := by
  constructor
  · exact c8_websocket_url_shape.1
      ⟨⟨[("compact", ⟨["id"], 20, true, ["name"], true, true, ["name"]⟩)],
          "default", ["id"], false, none⟩,
        some "products", "shop.product", true, ["create"]⟩
      (some "compact") none
      ⟨"products_compact", "compact", ["create"], "/ws/lists/products_compact/",
        "Connect to WebSocket at: /ws/lists/products_compact/"⟩
      (by decide)
  · exact c8_websocket_url_shape.2 true true "shop.product" none
      ⟨true, "list_shop.product_default", "/ws/lists/list_shop.product_default/",
        "Connect to WebSocket at: /ws/lists/list_shop.product_default/",
        ["create", "update", "delete"]⟩
      (by decide)

/-- C9: for `per_page > 0` and `total_count ≥ 0`, the pagination
metadata of `build_list_response` satisfies: `total_pages` is the
ceiling of `total_count / per_page`; `has_next` holds exactly when
`page < total_pages`; `has_previous` exactly when `page > 1`;
`next_page` is `page + 1` when there is a next page and `None`
otherwise; `previous_page` is `page - 1` when there is a previous page
and `None` otherwise. -/
theorem c9_build_list_response_pagination :
    ∀ (items : List String) (total_count page per_page : Int)
      (config : ListConfig),
      0 < per_page → 0 ≤ total_count →
      (build_list_response items total_count page per_page config).pagination.total_pages
        = ⌈(total_count : ℚ) / (per_page : ℚ)⌉
      ∧ ((build_list_response items total_count page per_page config).pagination.has_next
          = true
          ↔ page < (build_list_response items total_count page per_page
              config).pagination.total_pages)
      ∧ ((build_list_response items total_count page per_page config).pagination.has_previous
          = true ↔ 1 < page)
      ∧ (build_list_response items total_count page per_page config).pagination.next_page
        = (if page < (build_list_response items total_count page per_page
              config).pagination.total_pages then some (page + 1) else none)
      ∧ (build_list_response items total_count page per_page config).pagination.previous_page
        = (if 1 < page then some (page - 1) else none) := by
  intro items tc page pp config hpp htc
  have hppQ : (0 : ℚ) < (pp : ℚ) := by exact_mod_cast hpp
  have hdiv : (build_list_response items tc page pp config).pagination.total_pages
      = (tc + pp - 1) / pp := by
    simp [build_list_response, pyFloorDiv, hpp.le]
  refine ⟨?_, ?_, ?_, ?_, ?_⟩
  · rw [hdiv, eq_comm, Int.ceil_eq_iff]
    have key := Int.ediv_add_emod (tc + pp - 1) pp
    have hr0 : 0 ≤ (tc + pp - 1) % pp := Int.emod_nonneg _ (ne_of_gt hpp)
    have hr1 : (tc + pp - 1) % pp < pp := Int.emod_lt_of_pos _ hpp
    have hub : tc ≤ pp * ((tc + pp - 1) / pp) := by linarith
    have hlb : pp * ((tc + pp - 1) / pp - 1) < tc := by
      have h2 : pp * ((tc + pp - 1) / pp - 1) = pp * ((tc + pp - 1) / pp) - pp := by
        ring
      linarith
    constructor
    · rw [lt_div_iff₀ hppQ, mul_comm]
      exact_mod_cast hlb
    · rw [div_le_iff₀ hppQ, mul_comm]
      exact_mod_cast hub
  · rw [hdiv]
    simp [build_list_response, pyFloorDiv, hpp.le]
  · simp [build_list_response]
  · rw [hdiv]
    simp [build_list_response, pyFloorDiv, hpp.le]
  · simp [build_list_response]

/-- C9 witness: 7 items at 25 per page give one page, page 1 has
neither neighbour. -/
theorem c9_build_list_response_pagination_witness :
    (build_list_response [] 7 1 25
        ⟨[], 25, false, [], false, true, []⟩).pagination.total_pages
      = ⌈(7 : ℚ) / (25 : ℚ)⌉
    ∧ (build_list_response [] 7 1 25
        ⟨[], 25, false, [], false, true, []⟩).pagination.previous_page
      = (if (1 : Int) < 1 then some 0 else none) := by
  constructor
  · exact (c9_build_list_response_pagination [] 7 1 25
      ⟨[], 25, false, [], false, true, []⟩ (by decide) (by decide)).1
  · exact (c9_build_list_response_pagination [] 7 1 25
      ⟨[], 25, false, [], false, true, []⟩ (by decide) (by decide)).2.2.2.2
